import Mathlib

/-!
# Verification of the Feed-bot mirroring engine

A shallow embedding of the message-mirroring engine of the Feed-bot
repository (`handlers.py`, with the store layout from `db.py` and the event
wiring from `bot.py`), together with theorems settling the frozen claims
about its specification.

Modelling conventions:
* Channel and guild names are lists of tokens (`Tok`): a token is either a
  plain character or one emoji occurrence.  This mirrors how the Python
  `emoji.emoji_list` helper reports each emoji occurrence with its match
  positions; one emoji occupies one token position.
* Timestamps are integers (seconds); `timedelta(minutes=5)` becomes the
  constant `groupingWindow = 300`.
* The Discord transport and the MongoDB collections are capability
  interfaces.  Their responses are supplied by an `Env` of oracle
  functions, and every externally visible action (queries, sends, edits,
  remote deletes, mapping inserts/deletes) is recorded as an `Event`.
* Python exceptions that the code does not catch are modelled by returning
  `false` in the final component of a handler's result (the exception
  propagates to the event loop); caught exception classes appear as
  explicit result constructors (`SendResult`, `FetchResult`,
  `DeleteResult`).
-/

namespace FeedBot

/-- A token of a channel name: a plain character or a single emoji
occurrence (carried as its text). -/
inductive Tok where
  | plain (c : Char)
  | emo (e : String)
deriving DecidableEq, Repr

/-- Build an all-plain token list from a string (a name with no emoji). -/
def strToks (s : String) : List Tok := s.toList.map Tok.plain

/-- Render a token list back to text. -/
def renderToks : List Tok → String
  | [] => ""
  | Tok.plain c :: rest => String.singleton c ++ renderToks rest
  | Tok.emo e :: rest => e ++ renderToks rest

/-- Whitespace test used by the `lstrip` / `rstrip` models; emoji are never
whitespace. -/
def tokIsSpace : Tok → Bool
  | Tok.plain c => c.isWhitespace
  | Tok.emo _ => false

/-- Model of Python `str.lstrip()` on a token list. -/
def lstripToks (l : List Tok) : List Tok := l.dropWhile tokIsSpace

/-- Model of Python `str.rstrip()` on a token list. -/
def rstripToks (l : List Tok) : List Tok := (l.reverse.dropWhile tokIsSpace).reverse

/-- One entry of `emoji.emoji_list(name)`: match start, match end (one past
the emoji), and the emoji text. -/
structure EmojiEntry where
  match_start : Nat
  match_end : Nat
  emoji : String
deriving DecidableEq, Repr

/-- Walk the token list and report each emoji occurrence with its
position, as `emoji.emoji_list` does. -/
def emojiListAux : Nat → List Tok → List EmojiEntry
  | _, [] => []
  | i, Tok.plain _ :: rest => emojiListAux (i + 1) rest
  | i, Tok.emo e :: rest => ⟨i, i + 1, e⟩ :: emojiListAux (i + 1) rest

/-- Model of `emoji.emoji_list(name)`. -/
def emojiList (name : List Tok) : List EmojiEntry := emojiListAux 0 name

/-- Model of `emoji.replace_emoji(name, replace="")`: drop every emoji
token. -/
def replaceEmojiToks (name : List Tok) : List Tok :=
  name.filter (fun t => match t with | Tok.plain _ => true | Tok.emo _ => false)

/-- The `while` loop of `extract_channel_name_parts` (source lines 46-50):
count how many leading entries form a contiguous block starting at `pos`. -/
def contiguousCount : List EmojiEntry → Nat → Nat
  | [], _ => 0
  | e :: rest, pos => if e.match_start = pos then contiguousCount rest e.match_end + 1 else 0

/-- Model of `extract_channel_name_parts` (handlers.py lines 36-64):
leading emoji (if any), cleaned name text, trailing emoji (if any). -/
def extract_channel_name_parts (name : List Tok) : Option String × List Tok × Option String :=
  match emojiList name with
  | [] => (none, name, none)
  | first :: _ =>
    if first.match_start = 0 then
      -- Leading-only emoji: preserve existing behavior.
      if contiguousCount (emojiList name) 0 = (emojiList name).length then
        (some first.emoji, lstripToks (name.drop first.match_end), none)
      else
        (none, replaceEmojiToks name, none)
    else if (emojiList name).length = 1 ∧ first.match_end = name.length then
      -- Single trailing emoji.
      (none, rstripToks (name.take first.match_start), some first.emoji)
    else
      (none, replaceEmojiToks name, none)

/-- The per-destination grouping record held by `FeedHeaderState`: the
Python value is a dict, so each field read with `.get` may be absent. -/
structure HeaderRec where
  source_channel_id : Option Nat
  author_id : Option Nat
  timestamp : Option Int
deriving DecidableEq, Repr

/-- The in-memory header grouping state: an association list from feed
channel id to the last recorded grouping entry. -/
abbrev FeedHeaderState := List (Nat × HeaderRec)

/-- Model of `self._state.get(feed_channel_id)`. -/
def FeedHeaderState.lookup (s : FeedHeaderState) (feedChannelId : Nat) : Option HeaderRec :=
  (s.find? (fun p => p.1 == feedChannelId)).map Prod.snd

/-- Grouping window: `timedelta(minutes=5)`, in seconds. -/
def groupingWindow : Int := 300

/-- Model of `FeedHeaderState.should_include_header` (handlers.py lines
73-95). -/
def FeedHeaderState.should_include_header (s : FeedHeaderState) (feedChannelId : Nat)
    (sourceChannelId : Nat) (authorId : Nat) (isReply : Bool) (now : Int) : Bool :=
  if isReply then true
  else
    match s.lookup feedChannelId with
    | none => true
    | some last =>
      if last.source_channel_id ≠ some sourceChannelId ∨ last.author_id ≠ some authorId then true
      else
        match last.timestamp with
        | none => true
        | some lastTimestamp => now - lastTimestamp ≥ groupingWindow

/-- Replace (or add) the entry for a key in the association list. -/
def setEntry (s : FeedHeaderState) (k : Nat) (v : HeaderRec) : FeedHeaderState :=
  match s with
  | [] => [(k, v)]
  | (k', v') :: rest => if k' = k then (k, v) :: rest else (k', v') :: setEntry rest k v

/-- Model of `FeedHeaderState.update` (handlers.py lines 97-103); `now`
stands for the `datetime.now(timezone.utc)` default used when `timestamp`
is absent. -/
def FeedHeaderState.update (s : FeedHeaderState) (feedChannelId : Nat)
    (sourceChannelId : Nat) (authorId : Nat) (timestamp : Option Int) (now : Int) : FeedHeaderState :=
  let recordedAt := timestamp.getD now
  setEntry s feedChannelId ⟨some sourceChannelId, some authorId, some recordedAt⟩

/-- Abstract handle for an attachment file (`discord.File`). -/
abbrev UploadFile := Nat

/-- Abstract handle for a sticker (`discord.StickerItem`). -/
abbrev Sticker := Nat

/-- The permission bits consulted by the dispatcher's permission check. -/
structure Perms where
  view_channel : Bool
  send_messages : Bool
  send_messages_in_threads : Bool
deriving DecidableEq, Repr

/-- A resolved feed channel.  `guildMe` is `some perms` when both
`feed_channel.guild` and `feed_channel.guild.me` exist, carrying the
result of `permissions_for(guild.me)`. -/
structure Channel where
  id : Nat
  hasSend : Bool
  guildMe : Option Perms
deriving DecidableEq, Repr

/-- A source message as the handlers see it.  `referenceMessageId` is the
parent's id when `message.reference and message.reference.message_id` is
truthy.  `channelName` is `getattr(message.channel, "name", None)`.
Thread-channel messages (handlers.py lines 111-127) differ from plain
channel messages only in the text of the header label, which none of the
verified claims inspect; messages are modelled as plain-channel
messages. -/
structure Message where
  id : Nat
  channelId : Nat
  channelName : Option (List Tok)
  jumpUrl : String
  authorId : Nat
  authorIsBot : Bool
  authorDisplayName : Option String
  guildId : Option Nat
  content : String
  referenceMessageId : Option Nat
  stickers : List Sticker
  attachments : List UploadFile
deriving DecidableEq, Repr

/-- A document of the mapping collection.  `_store_mapping` always writes
`feed_message_id` and `feed_channel_id`, but the delete and edit
propagators read them with `.get`, so they are optional here. -/
structure MappingRec where
  mid : String
  source_message_id : Nat
  feed_message_id : Option Nat
  feed_channel_id : Option Nat
  source_guild_id : Option Nat
deriving DecidableEq, Repr

/-- A guild route document.  Each feed-channel entry is its `channel_id`
when the entry is a dict containing that key, else `none`.  The
`feed_channels` field itself may be absent (`none`). -/
structure Route where
  feed_channels : Option (List (Option Nat))
deriving DecidableEq, Repr

/-- The `discord.AllowedMentions` settings attached to sends and edits. -/
structure AllowedMentionsT where
  users : Bool
  roles : Bool
  everyone : Bool
  replied_user : Bool
deriving DecidableEq, Repr

/-- The module-level constant of handlers.py line 10: every mention class
and the reply ping suppressed. -/
def AllowedMentions : AllowedMentionsT :=
  { users := false, roles := false, everyone := false, replied_user := false }

/-- Why Discord rejected a send (`discord.HTTPException`).  The cause is
transport-side information; the code never inspects it. -/
inductive SendFailCause where
  | invalidReference
  | other
deriving DecidableEq, Repr

/-- Outcome of one `feed_channel.send(**send_kwargs)` call. -/
inductive SendResult where
  | ok (feedMessageId : Nat)
  | fail (cause : SendFailCause)
deriving DecidableEq, Repr

/-- Outcome of a `fetch_message` call: the fetched message (id and
current content), `discord.NotFound`, or another `discord.HTTPException`. -/
inductive FetchResult where
  | found (id : Nat) (content : String)
  | notFound
  | httpErr
deriving DecidableEq, Repr

/-- Outcome of `client.http.delete_message`. -/
inductive DeleteResult where
  | ok
  | notFound
  | forbidden
  | otherError
deriving DecidableEq, Repr

/-- The keyword arguments of a send: `stickers = []` models an absent
`stickers` key, `content = none` an absent `content` key. -/
structure SendKwargs where
  files : List UploadFile
  allowed_mentions : AllowedMentionsT
  reference : Option Nat
  content : Option String
  stickers : List Sticker
deriving DecidableEq, Repr

/-- Externally visible actions of the handlers, in order of occurrence. -/
inductive Event where
  | findRoute (guildId : String) (result : Option Route)
  | findMapping (mid : String) (result : Option MappingRec)
  | resolveChannel (channelId : Nat) (result : Option Channel)
  | fetchMsg (channelId : Nat) (messageId : Nat) (result : FetchResult)
  | send (channelId : Nat) (kw : SendKwargs) (result : SendResult)
  | insertMapping (rec : MappingRec)
  | editMsg (channelId : Nat) (messageId : Nat) (content : Option String) (am : AllowedMentionsT)
  | deleteRemote (channelId : Nat) (messageId : Nat) (result : DeleteResult)
  | deleteMapping (mid : String)
deriving DecidableEq, Repr

/-- Oracles for the external collaborators: route lookups, channel
resolution (the `get_feed_channel` cache/get/fetch chain is folded into
one function, as no claim observes the cache), message fetches, send and
remote-delete outcomes (indexed by a running counter), sticker downloads,
and the current clock. -/
structure Env where
  findRoute : String → Option Route
  resolveChannel : Nat → Option Channel
  fetchMessage : Nat → Nat → FetchResult
  sendResult : Nat → SendResult
  deleteResult : Nat → DeleteResult
  stickerFile : Sticker → Option UploadFile
  now : Int

/-- The mutable state threaded through the handlers: the mapping
collection, the grouping state, and the counters indexing the send and
remote-delete oracles. -/
structure St where
  mappings : List MappingRec
  header : FeedHeaderState
  sendIdx : Nat
  deleteIdx : Nat
deriving DecidableEq, Repr

/-- Model of the f-string mapping id `f"{message.id}:{feed_channel_id}"`. -/
def mapping_id_of (sourceMessageId feedChannelId : Nat) : String :=
  toString sourceMessageId ++ ":" ++ toString feedChannelId

/-- Model of `mapping_collection.find_one({"_id": mid})`. -/
def findById (mid : String) (maps : List MappingRec) : Option MappingRec :=
  maps.find? (fun r => r.mid == mid)

/-- Model of `mapping_collection.delete_one({"_id": mid})`: remove the
first document with the given id. -/
def deleteOneById (mid : String) : List MappingRec → List MappingRec
  | [] => []
  | r :: rest => if r.mid = mid then rest else r :: deleteOneById mid rest

/-- Advance the send-oracle counter. -/
def bumpSend (st : St) : St := { st with sendIdx := st.sendIdx + 1 }

/-- Advance the remote-delete-oracle counter. -/
def bumpDelete (st : St) : St := { st with deleteIdx := st.deleteIdx + 1 }

/-- The fallback channel name `f"channel-{message.channel.id}"`. -/
def fallbackChannelName (channelId : Nat) : String :=
  "channel-" ++ toString channelId

/-- Model of `build_content` (handlers.py lines 106-158) for plain-channel
messages: header line (channel label with emoji placement, author badge
for non-bot authors) followed by the message body; `none` when both are
absent. -/
def build_content (m : Message) (includeHeader : Bool) : Option String :=
  let headerParts : List String :=
    if includeHeader then
      -- channel_name = getattr(message.channel, "name", None) or f"channel-{id}"
      let nameToks : List Tok :=
        match m.channelName with
        | some n => if n = [] then strToks (fallbackChannelName m.channelId) else n
        | none => strToks (fallbackChannelName m.channelId)
      let parsed := extract_channel_name_parts nameToks
      let leadingEmoji := parsed.1
      let textName := parsed.2.1
      let trailingEmoji := parsed.2.2
      -- channel_display_name = text_name or f"channel-{id}"
      let channelDisplayName :=
        if renderToks textName = "" then fallbackChannelName m.channelId else renderToks textName
      let channelLabel :=
        match leadingEmoji with
        | some e => e ++ "[**" ++ channelDisplayName ++ "➜**](" ++ m.jumpUrl ++ ")"
        | none =>
          match trailingEmoji with
          | some e =>
            "[**#" ++ channelDisplayName ++ "**](" ++ m.jumpUrl ++ ") " ++ e
              ++ "[**➜**](" ++ m.jumpUrl ++ ")"
          | none => "[**#" ++ channelDisplayName ++ "➜**](" ++ m.jumpUrl ++ ")"
      -- author_header is falsy for bot authors and for empty display names
      let authorHeader : String :=
        if m.authorIsBot then ""
        else
          match m.authorDisplayName with
          | some d => if d = "" then "" else "**⬥ " ++ d ++ "**"
          | none => ""
      if authorHeader = "" then ["-# " ++ channelLabel]
      else ["-# " ++ authorHeader ++ " | " ++ channelLabel]
    else []
  let parts := headerParts ++ (if m.content = "" then [] else [m.content])
  if parts = [] then none else some (String.intercalate "\n" parts)

/-- Result of the reply-resolution step: the feed-side parent message id,
or an uncaught `KeyError` (a stored parent mapping lacking
`feed_message_id`, indexed with `parent_mapping["feed_message_id"]`). -/
inductive ParentRes where
  | resolved (ref : Option Nat)
  | raised
deriving DecidableEq, Repr

/-- Model of the reply-resolution step of `mirror_message_to_feed_channel`
(handlers.py lines 366-380).  Produces only events, no state change. -/
def resolve_parent_reference (env : Env) (msg : Message) (feedChannelId : Nat)
    (ch : Channel) (maps : List MappingRec) : List Event × ParentRes :=
  match msg.referenceMessageId with
  | none => ([], ParentRes.resolved none)
  | some parentSourceId =>
    let pmid := mapping_id_of parentSourceId feedChannelId
    let pfound := findById pmid maps
    let e := Event.findMapping pmid pfound
    match pfound with
    | none => ([e], ParentRes.resolved none)
    | some pm =>
      match pm.feed_message_id with
      | none => ([e], ParentRes.raised)
      | some pfid =>
        let fr := env.fetchMessage ch.id pfid
        let e2 := Event.fetchMsg ch.id pfid fr
        match fr with
        | FetchResult.found fid _ => ([e, e2], ParentRes.resolved (some fid))
        | FetchResult.notFound => ([e, e2], ParentRes.resolved none)
        | FetchResult.httpErr => ([e, e2], ParentRes.resolved none)

/-- Model of `_store_mapping` plus the preceding `header_state.update`
call — the success commit of the dispatcher (handlers.py lines 404-416 and
434-446). -/
def commit_mirror (env : Env) (msg : Message) (feedChannelId : Nat) (st : St)
    (feedMessageId : Nat) : St × List Event :=
  let header := FeedHeaderState.update st.header feedChannelId msg.channelId msg.authorId
    (some env.now) env.now
  let doc : MappingRec :=
    { mid := mapping_id_of msg.id feedChannelId
      source_message_id := msg.id
      feed_message_id := some feedMessageId
      feed_channel_id := some feedChannelId
      source_guild_id := msg.guildId }
  ({ st with header := header, mappings := st.mappings ++ [doc] }, [Event.insertMapping doc])

/-- Model of the sticker fallback (handlers.py lines 419-432): re-download
each sticker as a file and retry once; raise when no sticker could be
converted; the retry's own failure is uncaught. -/
def sticker_fallback (env : Env) (msg : Message) (feedChannelId : Nat) (ch : Channel)
    (st : St) (kw : SendKwargs) : St × List Event × Bool :=
  if msg.stickers.isEmpty then (st, [], false)
  else
    let fallbackFiles := msg.stickers.filterMap env.stickerFile
    if fallbackFiles.isEmpty then (st, [], false)
    else
      let kw3 := { kw with stickers := [], files := kw.files ++ fallbackFiles }
      let r3 := env.sendResult st.sendIdx
      let st := bumpSend st
      let e3 := Event.send ch.id kw3 r3
      match r3 with
      | SendResult.ok fmid =>
        let committed := commit_mirror env msg feedChannelId st fmid
        (committed.1, [e3] ++ committed.2, true)
      | SendResult.fail _ => (st, [e3], false)

/-- Model of the send/retry block of `mirror_message_to_feed_channel`
(handlers.py lines 382-446): first send; on failure, retry once with the
reply reference cleared when one was attached; then the sticker fallback;
commit on any success. -/
def send_phase (env : Env) (msg : Message) (feedChannelId : Nat) (ch : Channel)
    (st : St) (includeHeader : Bool) (parentRef : Option Nat) : St × List Event × Bool :=
  let content := build_content msg includeHeader
  let kw : SendKwargs :=
    { files := msg.attachments
      allowed_mentions := AllowedMentions
      reference := parentRef
      content := content
      stickers := msg.stickers }
  let r1 := env.sendResult st.sendIdx
  let st := bumpSend st
  let e1 := Event.send ch.id kw r1
  match r1 with
  | SendResult.ok fmid =>
    let committed := commit_mirror env msg feedChannelId st fmid
    (committed.1, [e1] ++ committed.2, true)
  | SendResult.fail _ =>
    if kw.reference.isSome then
      let kw2 := { kw with reference := none }
      let r2 := env.sendResult st.sendIdx
      let st := bumpSend st
      let e2 := Event.send ch.id kw2 r2
      match r2 with
      | SendResult.ok fmid =>
        let committed := commit_mirror env msg feedChannelId st fmid
        (committed.1, [e1, e2] ++ committed.2, true)
      | SendResult.fail _ =>
        let fb := sticker_fallback env msg feedChannelId ch st kw2
        (fb.1, [e1, e2] ++ fb.2.1, fb.2.2)
    else
      let fb := sticker_fallback env msg feedChannelId ch st kw
      (fb.1, [e1] ++ fb.2.1, fb.2.2)

/-- The permission check of handlers.py lines 343-348: when the channel
exposes a guild with a bot member, require view plus a send capability. -/
def canSendTo (ch : Channel) : Bool :=
  match ch.guildMe with
  | none => true
  | some perms => perms.view_channel && (perms.send_messages || perms.send_messages_in_threads)

/-- Model of `mirror_message_to_feed_channel` (handlers.py lines 325-452).
The final boolean is `false` when an uncaught exception propagates to the
caller. -/
def mirror_message_to_feed_channel (env : Env) (msg : Message) (feedChannelId : Nat)
    (st : St) : St × List Event × Bool :=
  let chRes := env.resolveChannel feedChannelId
  let e0 := Event.resolveChannel feedChannelId chRes
  match chRes with
  | none => (st, [e0], true)
  | some ch =>
    if !ch.hasSend then (st, [e0], true)
    else
      let mappingId := mapping_id_of msg.id feedChannelId
      let found := findById mappingId st.mappings
      let e1 := Event.findMapping mappingId found
      if found.isSome then (st, [e0, e1], true)
      else if !canSendTo ch then (st, [e0, e1], true)
      else
        let isReply := msg.referenceMessageId.isSome
        let includeHeader := FeedHeaderState.should_include_header st.header feedChannelId
          msg.channelId msg.authorId isReply env.now
        let pr := resolve_parent_reference env msg feedChannelId ch st.mappings
        match pr.2 with
        | ParentRes.raised => (st, [e0, e1] ++ pr.1, false)
        | ParentRes.resolved parentRef =>
          let sp := send_phase env msg feedChannelId ch st includeHeader parentRef
          (sp.1, [e0, e1] ++ pr.1 ++ sp.2.1, sp.2.2)

/-- The per-destination fan-out loop of `handle_message` (handlers.py
lines 229-241): entries without a `channel_id` are skipped; an uncaught
exception from a destination aborts the remaining destinations. -/
def mirrorAll (env : Env) (msg : Message) :
    List (Option Nat) → St → St × List Event × Bool
  | [], st => (st, [], true)
  | none :: rest, st => mirrorAll env msg rest st
  | some feedChannelId :: rest, st =>
    let out := mirror_message_to_feed_channel env msg feedChannelId st
    if out.2.2 then
      let tail := mirrorAll env msg rest out.1
      (tail.1, out.2.1 ++ tail.2.1, tail.2.2)
    else (out.1, out.2.1, false)

/-- Model of `handle_message` (handlers.py lines 203-241). -/
def handle_message (env : Env) (clientUserId : Option Nat) (msg : Message)
    (st : St) : St × List Event × Bool :=
  match msg.guildId with
  | none => (st, [], true)
  | some guildId =>
    -- Skip the feed bot itself.
    if clientUserId == some msg.authorId then (st, [], true)
    else
      let route := env.findRoute (toString guildId)
      let e0 := Event.findRoute (toString guildId) route
      let feedChannels : List (Option Nat) :=
        match route with
        | none => []
        | some r => r.feed_channels.getD []
      if feedChannels.isEmpty then (st, [e0], true)
      else
        let feedChannelIds := feedChannels.filterMap id
        -- Avoid loops: do not mirror messages that originate from a
        -- configured feed channel.
        if msg.channelId ∈ feedChannelIds then (st, [e0], true)
        else
          let out := mirrorAll env msg feedChannels st
          (out.1, [e0] ++ out.2.1, out.2.2)

/-- The header marker tested by the edit propagator. -/
def headerMarker : String := "-# "

/-- The per-mapping loop of `handle_message_edit` (handlers.py lines
258-284).  The edit handler never writes to the store or the grouping
state, so it produces only events. -/
def editLoop (env : Env) (after : Message) : List MappingRec → List Event
  | [] => []
  | m :: rest =>
    match m.feed_channel_id, m.feed_message_id with
    | some feedChannelId, some feedMessageId =>
      let chRes := env.resolveChannel feedChannelId
      let e0 := Event.resolveChannel feedChannelId chRes
      (match chRes with
       | none => [e0]
       | some ch =>
         let fr := env.fetchMessage ch.id feedMessageId
         let e1 := Event.fetchMsg ch.id feedMessageId fr
         match fr with
         | FetchResult.notFound => [e0, e1]
         | FetchResult.httpErr => [e0, e1]
         | FetchResult.found _ content =>
           let includeHeader := if content = "" then false else content.startsWith headerMarker
           let newContent := build_content after includeHeader
           [e0, e1, Event.editMsg ch.id feedMessageId newContent AllowedMentions])
        ++ editLoop env after rest
    | _, _ => editLoop env after rest

/-- Model of `handle_message_edit` (handlers.py lines 244-284). -/
def handle_message_edit (env : Env) (clientUserId : Option Nat) (after : Message)
    (st : St) : List Event :=
  match after.guildId with
  | none => []
  | some _ =>
    if clientUserId == some after.authorId then []
    else
      editLoop env after (st.mappings.filter (fun m => m.source_message_id == after.id))

/-- The per-mapping loop of `_delete_mirrored_messages` (handlers.py lines
480-500): mappings lacking either id are skipped; when the channel cannot
be resolved the mapping is removed directly; otherwise the remote delete
is attempted and the mapping is removed in every outcome. -/
def deleteLoop (env : Env) : List MappingRec → St → St × List Event
  | [], st => (st, [])
  | m :: rest, st =>
    match m.feed_channel_id, m.feed_message_id with
    | some feedChannelId, some feedMessageId =>
      let chRes := env.resolveChannel feedChannelId
      let e0 := Event.resolveChannel feedChannelId chRes
      match chRes with
      | none =>
        let st' := { st with mappings := deleteOneById m.mid st.mappings }
        let tail := deleteLoop env rest st'
        (tail.1, [e0, Event.deleteMapping m.mid] ++ tail.2)
      | some ch =>
        let dr := env.deleteResult st.deleteIdx
        let st' := bumpDelete st
        let e1 := Event.deleteRemote ch.id feedMessageId dr
        let st'' := { st' with mappings := deleteOneById m.mid st'.mappings }
        let tail := deleteLoop env rest st''
        (tail.1, [e0, e1, Event.deleteMapping m.mid] ++ tail.2)
    | _, _ => deleteLoop env rest st

/-- Model of `_delete_mirrored_messages` (handlers.py lines 473-500). -/
def delete_mirrored_messages (env : Env) (sourceMessageId : Nat) (st : St) :
    St × List Event :=
  deleteLoop env (st.mappings.filter (fun m => m.source_message_id == sourceMessageId)) st

/-- Model of `handle_message_delete` (handlers.py lines 287-305). -/
def handle_message_delete (env : Env) (clientUserId : Option Nat) (msg : Message)
    (st : St) : St × List Event :=
  match msg.guildId with
  | none => (st, [])
  | some _ =>
    if clientUserId == some msg.authorId then (st, [])
    else delete_mirrored_messages env msg.id st

/-- The raw delete payload (`discord.RawMessageDeleteEvent`). -/
structure RawMessageDeleteEvent where
  message_id : Nat
  guild_id : Option Nat
deriving DecidableEq, Repr

/-- Model of `handle_raw_message_delete` (handlers.py lines 308-322). -/
def handle_raw_message_delete (env : Env) (payload : RawMessageDeleteEvent)
    (st : St) : St × List Event :=
  match payload.guild_id with
  | none => (st, [])
  | some _ => delete_mirrored_messages env payload.message_id st

/-- Is this event a remote send? -/
def isSendEvent : Event → Bool
  | Event.send _ _ _ => true
  | _ => false

/-- Is this event a mapping insertion? -/
def isInsertEvent : Event → Bool
  | Event.insertMapping _ => true
  | _ => false

/-- Is this event a successful remote send? -/
def isOkSend : Event → Bool
  | Event.send _ _ (SendResult.ok _) => true
  | _ => false

/-- Does the event list contain a successful send? -/
def hasOkSend (ev : List Event) : Bool := ev.any isOkSend

/-- No mapping insertion happens until some send has succeeded. -/
def noInsertBeforeOkSend : List Event → Bool
  | [] => true
  | Event.insertMapping _ :: _ => false
  | Event.send _ _ (SendResult.ok _) :: _ => true
  | _ :: rest => noInsertBeforeOkSend rest

/-- The send attempts of an event list, in order, as kwargs/result pairs. -/
def sendEvents (ev : List Event) : List (SendKwargs × SendResult) :=
  ev.filterMap (fun e =>
    match e with
    | Event.send _ kw r => some (kw, r)
    | _ => none)

/-- Does this allowed-mentions value suppress user, role and everyone
mentions and the reply ping? -/
def suppressesAll (am : AllowedMentionsT) : Bool :=
  !am.users && !am.roles && !am.everyone && !am.replied_user

/-- Every send and edit in the event list carries a fully suppressing
allowed-mentions setting. -/
def mentionsOk : Event → Bool
  | Event.send _ kw _ => suppressesAll kw.allowed_mentions
  | Event.editMsg _ _ _ am => suppressesAll am
  | _ => true

/-- Is the token a plain (non-emoji) character? -/
def Tok.isPlain : Tok → Bool
  | Tok.plain _ => true
  | Tok.emo _ => false

theorem emojiListAux_of_all_plain (n : List Tok) (i : Nat)
    (h : ∀ t ∈ n, t.isPlain = true) : emojiListAux i n = [] := by
  induction n generalizing i with
  | nil => rfl
  | cons t rest ih =>
    cases t with
    | plain c =>
      simpa [emojiListAux] using ih (i + 1) (fun t ht => h t (List.mem_cons_of_mem _ ht))
    | emo e =>
      have := h (Tok.emo e) (List.mem_cons_self _ _)
      simp [Tok.isPlain] at this

theorem emojiList_of_all_plain (n : List Tok) (h : ∀ t ∈ n, t.isPlain = true) :
    emojiList n = [] :=
  emojiListAux_of_all_plain n 0 h

/-- The spec's "🎮 gaming" channel name. -/
def gamingName : List Tok := Tok.emo "🎮" :: strToks " gaming"

/-- The spec's "general 📌" channel name. -/
def generalPinName : List Tok := strToks "general " ++ [Tok.emo "📌"]

/-- The spec's "🔥🔥 hot-takes" channel name. -/
def hotTakesName : List Tok := Tok.emo "🔥" :: Tok.emo "🔥" :: strToks " hot-takes"

/-- C7: `extract_channel_name_parts` maps "🎮 gaming" to a leading emoji
with cleaned text "gaming", maps "general 📌" to cleaned text "general"
with a trailing emoji, and passes every emoji-free name through
unchanged with both emoji slots empty. -/
theorem emoji_split_basic_vectors (name : List Tok)
    (h : ∀ t ∈ name, t.isPlain = true) :
    extract_channel_name_parts gamingName = (some "🎮", strToks "gaming", none) ∧
    extract_channel_name_parts generalPinName = (none, strToks "general", some "📌") ∧
    extract_channel_name_parts name = (none, name, none) := by
  refine ⟨by decide, by decide, ?_⟩
  have hE : emojiList name = [] := emojiList_of_all_plain name h
  unfold extract_channel_name_parts
  rw [hE]

/-- Witness for C7 at the spec's emoji-free vector "announcements". -/
theorem emoji_split_basic_vectors_witness :
    extract_channel_name_parts (strToks "announcements") =
      (none, strToks "announcements", none) :=
  (emoji_split_basic_vectors (strToks "announcements") (by decide)).2.2

/-- C6 counterexample: on "🔥🔥 hot-takes" the code does not fall back to
the full emoji strip claimed by the spec. -/
theorem multi_emoji_leading_run_counterexample :
    extract_channel_name_parts hotTakesName ≠ (none, strToks "hot-takes", none) := by
  decide

/-- C6 amended: a leading run of more than one emoji that contains every
emoji of the name takes the leading-emoji branch: the first emoji of the
run is returned as the leading emoji, and the cleaned text is the
remainder after that first emoji (the second emoji included,
left-stripped), with no trailing emoji. -/
theorem multi_emoji_leading_run :
    extract_channel_name_parts hotTakesName =
      (some "🔥", Tok.emo "🔥" :: strToks " hot-takes", none) := by
  decide

/-- C3: `should_include_header` returns true for every reply, whenever no
prior state exists for the destination, and whenever the stored state
differs in source channel or author; when the stored state matches both
and carries a timestamp, a non-reply message shows a header exactly when
the elapsed time reaches the five-minute grouping window. -/
theorem header_suppression_rule (s : FeedHeaderState)
    (feedChannelId sourceChannelId authorId : Nat) (isReply : Bool) (now t0 : Int)
    (e : HeaderRec) :
    (FeedHeaderState.should_include_header s feedChannelId sourceChannelId authorId
        true now = true) ∧
    (s.lookup feedChannelId = none →
      FeedHeaderState.should_include_header s feedChannelId sourceChannelId authorId
        isReply now = true) ∧
    (s.lookup feedChannelId = some e →
      (e.source_channel_id ≠ some sourceChannelId ∨ e.author_id ≠ some authorId) →
      FeedHeaderState.should_include_header s feedChannelId sourceChannelId authorId
        isReply now = true) ∧
    (s.lookup feedChannelId = some ⟨some sourceChannelId, some authorId, some t0⟩ →
      (FeedHeaderState.should_include_header s feedChannelId sourceChannelId authorId
          false now = true ↔ now - t0 ≥ groupingWindow)) := by
  refine ⟨?_, ?_, ?_, ?_⟩
  · simp [FeedHeaderState.should_include_header]
  · intro h
    cases isReply <;> simp [FeedHeaderState.should_include_header, h]
  · intro h hdiff
    cases isReply <;> simp [FeedHeaderState.should_include_header, h, if_pos hdiff]
  · intro h
    simp [FeedHeaderState.should_include_header, h]

/-- Witness for C3: with stored state `(channel 5, author 9, t0 = 0)` at
destination 1, a non-reply at `now = 100` (elapsed under five minutes) is
suppressed. -/
theorem header_suppression_rule_witness :
    FeedHeaderState.should_include_header [(1, ⟨some 5, some 9, some 0⟩)] 1 5 9
      false 100 = false := by
  have h := (header_suppression_rule [(1, ⟨some 5, some 9, some (0 : Int)⟩)] 1 5 9
    false 100 0 ⟨some 5, some 9, some 0⟩).2.2.2 (by decide)
  revert h
  decide

/-- An environment in which nothing resolves and every send fails. -/
def envNull : Env :=
  { findRoute := fun _ => none
    resolveChannel := fun _ => none
    fetchMessage := fun _ _ => FetchResult.notFound
    sendResult := fun _ => SendResult.fail SendFailCause.other
    deleteResult := fun _ => DeleteResult.ok
    stickerFile := fun _ => none
    now := 0 }

/-- A direct message: no guild id. -/
def msgNoGuild : Message :=
  { id := 1, channelId := 2, channelName := none, jumpUrl := "", authorId := 3,
    authorIsBot := false, authorDisplayName := none, guildId := none, content := "hi",
    referenceMessageId := none, stickers := [], attachments := [] }

/-- A raw delete payload without a guild id. -/
def payloadNoGuild : RawMessageDeleteEvent := { message_id := 1, guild_id := none }

/-- The empty store/state. -/
def stEmpty : St := { mappings := [], header := [], sendIdx := 0, deleteIdx := 0 }

/-- C10: every handler is an immediate no-op on a guild-less event: no
query, no remote call, no store or grouping-state change. -/
theorem guildless_events_noop (env : Env) (clientUserId : Option Nat) (msg : Message)
    (payload : RawMessageDeleteEvent) (st : St)
    (hm : msg.guildId = none) (hp : payload.guild_id = none) :
    handle_message env clientUserId msg st = (st, [], true) ∧
    handle_message_edit env clientUserId msg st = [] ∧
    handle_message_delete env clientUserId msg st = (st, []) ∧
    handle_raw_message_delete env payload st = (st, []) := by
  refine ⟨?_, ?_, ?_, ?_⟩ <;>
    simp [handle_message, handle_message_edit, handle_message_delete,
      handle_raw_message_delete, hm, hp]

/-- Witness for C10 at a concrete direct message and raw payload. -/
theorem guildless_events_noop_witness :
    handle_message envNull none msgNoGuild stEmpty = (stEmpty, [], true) ∧
    handle_message_edit envNull none msgNoGuild stEmpty = [] ∧
    handle_message_delete envNull none msgNoGuild stEmpty = (stEmpty, []) ∧
    handle_raw_message_delete envNull payloadNoGuild stEmpty = (stEmpty, []) :=
  guildless_events_noop envNull none msgNoGuild payloadNoGuild stEmpty rfl rfl

/-- C1: when a mapping for `(source message, feed channel)` already exists,
`mirror_message_to_feed_channel` returns with the state untouched, sends
nothing and inserts nothing. -/
theorem mirror_idempotent (env : Env) (msg : Message) (feedChannelId : Nat) (st : St)
    (h : (findById (mapping_id_of msg.id feedChannelId) st.mappings).isSome = true) :
    (mirror_message_to_feed_channel env msg feedChannelId st).1 = st ∧
    (mirror_message_to_feed_channel env msg feedChannelId st).2.2 = true ∧
    ((mirror_message_to_feed_channel env msg feedChannelId st).2.1.all
      (fun e => !isSendEvent e && !isInsertEvent e)) = true := by
  unfold mirror_message_to_feed_channel
  rcases hr : env.resolveChannel feedChannelId with _ | ch
  · simp [isSendEvent, isInsertEvent]
  · cases hs : ch.hasSend <;>
      simp [hs, h, isSendEvent, isInsertEvent]

/-- A resolvable feed channel with unrestricted permissions. -/
def chPlain : Channel := { id := 9, hasSend := true, guildMe := none }

/-- An environment resolving every channel id to `chPlain`. -/
def envResolve : Env := { envNull with resolveChannel := fun _ => some chPlain }

/-- An existing mapping of source message 1 to feed channel 9. -/
def mapExisting : MappingRec :=
  { mid := mapping_id_of 1 9, source_message_id := 1, feed_message_id := some 50,
    feed_channel_id := some 9, source_guild_id := some 4 }

/-- A guild message with id 1 in channel 2. -/
def msgGuild : Message := { msgNoGuild with guildId := some 4 }

/-- A store already holding `mapExisting`. -/
def stWithMapping : St := { stEmpty with mappings := [mapExisting] }

/-- Witness for C1: the second mirror of message 1 to feed channel 9 is a
no-op. -/
theorem mirror_idempotent_witness :
    (mirror_message_to_feed_channel envResolve msgGuild 9 stWithMapping).1 = stWithMapping ∧
    (mirror_message_to_feed_channel envResolve msgGuild 9 stWithMapping).2.2 = true ∧
    ((mirror_message_to_feed_channel envResolve msgGuild 9 stWithMapping).2.1.all
      (fun e => !isSendEvent e && !isInsertEvent e)) = true :=
  mirror_idempotent envResolve msgGuild 9 stWithMapping (by decide)

/-- C2: when the source channel itself is a configured feed destination of
the guild's route, `handle_message` mirrors to no destination: it sends
nothing, inserts nothing, and leaves the state untouched. -/
theorem loop_freedom (env : Env) (clientUserId : Option Nat) (msg : Message) (st : St)
    (guildId : Nat) (route : Route) (entries : List (Option Nat))
    (hg : msg.guildId = some guildId)
    (hr : env.findRoute (toString guildId) = some route)
    (hf : route.feed_channels = some entries)
    (hmem : msg.channelId ∈ entries.filterMap id) :
    (handle_message env clientUserId msg st).1 = st ∧
    (handle_message env clientUserId msg st).2.2 = true ∧
    ((handle_message env clientUserId msg st).2.1.all
      (fun e => !isSendEvent e && !isInsertEvent e)) = true := by
  unfold handle_message
  simp only [hg]
  by_cases hc : clientUserId == some msg.authorId
  · simp [hc]
  · have hne : entries.isEmpty = false := by
      cases entries with
      | nil => simp at hmem
      | cons a l => rfl
    simp [hc, hr, hf, hne, hmem, isSendEvent, isInsertEvent]

/-- A route declaring channel 2 as a feed destination. -/
def routeChannel2 : Route := { feed_channels := some [some 2] }

/-- An environment whose route for guild 4 is `routeChannel2`. -/
def envRouted : Env :=
  { envNull with findRoute := fun g => if g = "4" then some routeChannel2 else none }

/-- Witness for C2: a message authored in feed channel 2 of guild 4 is not
mirrored anywhere. -/
theorem loop_freedom_witness :
    (handle_message envRouted none msgGuild stEmpty).1 = stEmpty ∧
    (handle_message envRouted none msgGuild stEmpty).2.2 = true ∧
    ((handle_message envRouted none msgGuild stEmpty).2.1.all
      (fun e => !isSendEvent e && !isInsertEvent e)) = true :=
  loop_freedom envRouted none msgGuild stEmpty 4 routeChannel2 [some 2]
    rfl (by decide) rfl (by decide)

theorem deleteOneById_sublist (mid : String) (l : List MappingRec) :
    (deleteOneById mid l).Sublist l := by
  induction l with
  | nil => simp [deleteOneById]
  | cons x xs ih =>
    simp only [deleteOneById]
    split
    · exact List.sublist_cons_self x xs
    · exact ih.cons₂ x

theorem mem_of_mem_deleteOneById {mid : String} {l : List MappingRec} {r : MappingRec}
    (hr : r ∈ deleteOneById mid l) : r ∈ l :=
  (deleteOneById_sublist mid l).subset hr

theorem nodup_map_mid_deleteOneById {mid : String} {l : List MappingRec}
    (hnd : (l.map MappingRec.mid).Nodup) :
    ((deleteOneById mid l).map MappingRec.mid).Nodup :=
  hnd.sublist ((deleteOneById_sublist mid l).map MappingRec.mid)

theorem mid_ne_of_mem_deleteOneById {mid : String} {l : List MappingRec} {r : MappingRec}
    (hnd : (l.map MappingRec.mid).Nodup) (hr : r ∈ deleteOneById mid l) : r.mid ≠ mid := by
  induction l with
  | nil => simp [deleteOneById] at hr
  | cons x xs ih =>
    rw [List.map_cons, List.nodup_cons] at hnd
    by_cases hx : x.mid = mid
    · rw [deleteOneById, if_pos hx] at hr
      intro hrm
      exact hnd.1 (by rw [hx, ← hrm]; exact List.mem_map_of_mem MappingRec.mid hr)
    · rw [deleteOneById, if_neg hx] at hr
      rcases List.mem_cons.mp hr with h | h
      · rw [h]; exact hx
      · exact ih hnd.2 h

theorem deleteLoop_clears (env : Env) (smid : Nat) :
    ∀ (targets : List MappingRec) (st : St),
    (∀ m ∈ targets, m.feed_channel_id.isSome ∧ m.feed_message_id.isSome) →
    (st.mappings.map MappingRec.mid).Nodup →
    (∀ r ∈ st.mappings, r.source_message_id = smid → r.mid ∈ targets.map MappingRec.mid) →
    ∀ r ∈ (deleteLoop env targets st).1.mappings, r.source_message_id ≠ smid := by
  intro targets
  induction targets with
  | nil =>
    intro st _ _ hcov r hr heq
    simpa using hcov r (by simpa [deleteLoop] using hr) heq
  | cons m rest ih =>
    intro st hwf hnd hcov r hr
    obtain ⟨hfc, hfm⟩ := hwf m (List.mem_cons_self _ _)
    obtain ⟨fcid, hfc⟩ := Option.isSome_iff_exists.mp hfc
    obtain ⟨fmid, hfm⟩ := Option.isSome_iff_exists.mp hfm
    have hwfRest : ∀ m' ∈ rest, m'.feed_channel_id.isSome ∧ m'.feed_message_id.isSome :=
      fun m' hm' => hwf m' (List.mem_cons_of_mem _ hm')
    have step : ∀ st' : St, st'.mappings = deleteOneById m.mid st.mappings →
        r ∈ (deleteLoop env rest st').1.mappings → r.source_message_id ≠ smid := by
      intro st' hst' hr'
      refine ih st' hwfRest ?_ ?_ r hr'
      · rw [hst']; exact nodup_map_mid_deleteOneById hnd
      · intro r' hr'' heq
        rw [hst'] at hr''
        have hmem := hcov r' (mem_of_mem_deleteOneById hr'') heq
        rw [List.map_cons, List.mem_cons] at hmem
        rcases hmem with h | h
        · exact absurd h (mid_ne_of_mem_deleteOneById hnd hr'')
        · exact h
    simp only [deleteLoop, hfc, hfm] at hr
    rcases hch : env.resolveChannel fcid with _ | ch <;> simp only [hch] at hr
    · exact step _ rfl hr
    · exact step _ rfl hr

/-- C4: after `_delete_mirrored_messages` runs for a source message id, no
mapping for that id remains, for every combination of remote-delete
outcomes (success, not-found, forbidden, other error) and unresolvable
destination channels — provided the store is well formed (unique document
ids, and each mapping for the id carries its feed channel and feed message
ids, as `_store_mapping` always writes them). -/
theorem delete_fanout_cleanup (env : Env) (sourceMessageId : Nat) (st : St)
    (hwf : ∀ m ∈ st.mappings, m.source_message_id = sourceMessageId →
      m.feed_channel_id.isSome ∧ m.feed_message_id.isSome)
    (hnd : (st.mappings.map MappingRec.mid).Nodup) :
    ((delete_mirrored_messages env sourceMessageId st).1.mappings.all
      (fun m => m.source_message_id != sourceMessageId)) = true := by
  rw [List.all_eq_true]
  intro r hr
  have hne := deleteLoop_clears env sourceMessageId
    (st.mappings.filter (fun m => m.source_message_id == sourceMessageId)) st
    (fun m hm => by
      rw [List.mem_filter, beq_iff_eq] at hm
      exact hwf m hm.1 hm.2)
    hnd
    (fun r' hr' heq => List.mem_map_of_mem MappingRec.mid
      (List.mem_filter.mpr ⟨hr', beq_iff_eq.mpr heq⟩))
    r hr
  simpa [bne_iff_ne] using hne

/-- Two mappings of source message 7 to feed channels 9 and 11. -/
def mapDel1 : MappingRec :=
  { mid := mapping_id_of 7 9, source_message_id := 7, feed_message_id := some 70,
    feed_channel_id := some 9, source_guild_id := some 4 }

/-- Second mapping for the delete fan-out witness; its channel will not
resolve. -/
def mapDel2 : MappingRec :=
  { mid := mapping_id_of 7 11, source_message_id := 7, feed_message_id := some 71,
    feed_channel_id := some 11, source_guild_id := some 4 }

/-- An environment where only channel 9 resolves and the remote delete is
forbidden. -/
def envDelete : Env :=
  { envNull with
    resolveChannel := fun cid => if cid = 9 then some chPlain else none
    deleteResult := fun _ => DeleteResult.forbidden }

/-- The store holding both delete-witness mappings. -/
def stDelete : St := { stEmpty with mappings := [mapDel1, mapDel2] }

/-- Witness for C4: with one forbidden remote delete and one unresolvable
channel, both mappings of source message 7 are still removed. -/
theorem delete_fanout_cleanup_witness :
    ((delete_mirrored_messages envDelete 7 stDelete).1.mappings.all
      (fun m => m.source_message_id != 7)) = true :=
  delete_fanout_cleanup envDelete 7 stDelete (by decide) (by decide)

theorem commit_mirror_mentions (env : Env) (msg : Message) (feedChannelId : Nat)
    (st : St) (fmid : Nat) :
    ((commit_mirror env msg feedChannelId st fmid).2.all mentionsOk) = true := by
  simp [commit_mirror, mentionsOk]

theorem sticker_fallback_mentions (env : Env) (msg : Message) (feedChannelId : Nat)
    (ch : Channel) (st : St) (kw : SendKwargs)
    (hk : suppressesAll kw.allowed_mentions = true) :
    ((sticker_fallback env msg feedChannelId ch st kw).2.1.all mentionsOk) = true := by
  unfold sticker_fallback
  by_cases h1 : msg.stickers.isEmpty
  · simp [h1]
  · by_cases h2 : (msg.stickers.filterMap env.stickerFile).isEmpty
    · simp [h1, h2]
    · rcases h3 : env.sendResult st.sendIdx with fmid | c <;>
        simp [h1, h2, h3, mentionsOk, List.all_append, commit_mirror, hk]

theorem send_phase_mentions (env : Env) (msg : Message) (feedChannelId : Nat)
    (ch : Channel) (st : St) (includeHeader : Bool) (parentRef : Option Nat) :
    ((send_phase env msg feedChannelId ch st includeHeader parentRef).2.1.all
      mentionsOk) = true := by
  have hsOk : suppressesAll AllowedMentions = true := by decide
  unfold send_phase
  rcases h1 : env.sendResult st.sendIdx with fmid | c
  · simp [h1, mentionsOk, List.all_append, commit_mirror, hsOk]
  · simp only [h1]
    by_cases href : parentRef.isSome
    · rcases h2 : env.sendResult (bumpSend st).sendIdx with fmid2 | c2
      · simp [href, h2, mentionsOk, List.all_append, commit_mirror, hsOk]
      · have hsf := sticker_fallback_mentions env msg feedChannelId ch
          (bumpSend (bumpSend st))
          { files := msg.attachments, allowed_mentions := AllowedMentions,
            reference := none, content := build_content msg includeHeader,
            stickers := msg.stickers } (by simpa using hsOk)
        simp only [List.all_append] at hsf ⊢
        simp [href, h2, mentionsOk, List.all_append, hsf, hsOk]
    · have hsf := sticker_fallback_mentions env msg feedChannelId ch (bumpSend st)
        { files := msg.attachments, allowed_mentions := AllowedMentions,
          reference := parentRef, content := build_content msg includeHeader,
          stickers := msg.stickers } (by simpa using hsOk)
      simp [href, mentionsOk, List.all_append, hsf, hsOk]

theorem resolve_parent_mentions (env : Env) (msg : Message) (feedChannelId : Nat)
    (ch : Channel) (maps : List MappingRec) :
    ((resolve_parent_reference env msg feedChannelId ch maps).1.all mentionsOk) = true := by
  unfold resolve_parent_reference
  rcases msg.referenceMessageId with _ | pid
  · rfl
  · rcases hpf : findById (mapping_id_of pid feedChannelId) maps with _ | pm
    · simp [hpf, mentionsOk]
    · rcases hfm : pm.feed_message_id with _ | pfid
      · simp [hpf, hfm, mentionsOk]
      · rcases hfr : env.fetchMessage ch.id pfid with ⟨fid, content⟩ | _ | _ <;>
          simp [hpf, hfm, hfr, mentionsOk]

theorem mirror_mentions (env : Env) (msg : Message) (feedChannelId : Nat) (st : St) :
    ((mirror_message_to_feed_channel env msg feedChannelId st).2.1.all
      mentionsOk) = true := by
  unfold mirror_message_to_feed_channel
  rcases hr : env.resolveChannel feedChannelId with _ | ch
  · simp [mentionsOk]
  · cases hs : ch.hasSend
    · simp [hs, mentionsOk]
    · by_cases hf : (findById (mapping_id_of msg.id feedChannelId) st.mappings).isSome
      · simp [hs, hf, mentionsOk]
      · by_cases hp : canSendTo ch
        · simp only [hs, hf, hp, Bool.not_true, Bool.not_false, if_false, if_true,
            Bool.false_eq_true, if_neg]
          rcases hpr : (resolve_parent_reference env msg feedChannelId ch st.mappings).2
            with pref | _
          · simp [hpr, hf, hp, mentionsOk, List.all_append, resolve_parent_mentions,
              send_phase_mentions]
          · simp [hpr, hf, hp, mentionsOk, List.all_append, resolve_parent_mentions]
        · simp [hs, hf, hp, mentionsOk]

theorem mirrorAll_mentions (env : Env) (msg : Message) :
    ∀ (entries : List (Option Nat)) (st : St),
    ((mirrorAll env msg entries st).2.1.all mentionsOk) = true := by
  intro entries
  induction entries with
  | nil => intro st; rfl
  | cons e rest ih =>
    intro st
    cases e with
    | none => simpa [mirrorAll] using ih st
    | some feedChannelId =>
      simp only [mirrorAll]
      split
      · simp [List.all_append, mirror_mentions, ih]
      · simp [mirror_mentions]

theorem editLoop_mentions (env : Env) (after : Message) :
    ∀ maps : List MappingRec, ((editLoop env after maps).all mentionsOk) = true := by
  intro maps
  induction maps with
  | nil => rfl
  | cons m rest ih =>
    rcases hfc : m.feed_channel_id with _ | fcid <;>
      rcases hfm : m.feed_message_id with _ | fmid <;>
      simp only [editLoop, hfc, hfm]
    · exact ih
    · exact ih
    · exact ih
    · rcases hch : env.resolveChannel fcid with _ | ch
      · simp [hch, mentionsOk, List.all_append, ih]
      · rcases hfr : env.fetchMessage ch.id fmid with ⟨fid, content⟩ | _ | _ <;>
          simp [hch, hfr, mentionsOk, List.all_append, ih, suppressesAll, AllowedMentions]

/-- C8: every send of the mirror dispatcher (both directly and through the
new-message handler's fan-out) and every edit of the edit propagator
carries an allowed-mentions setting suppressing user, role and everyone
mentions and the reply ping. -/
theorem mention_suppression (env : Env) (clientUserId : Option Nat)
    (msg after : Message) (feedChannelId : Nat) (st st2 st3 : St) :
    ((mirror_message_to_feed_channel env msg feedChannelId st).2.1.all
      mentionsOk) = true ∧
    ((handle_message env clientUserId msg st2).2.1.all mentionsOk) = true ∧
    ((handle_message_edit env clientUserId after st3).all mentionsOk) = true := by
  refine ⟨mirror_mentions env msg feedChannelId st, ?_, ?_⟩
  · unfold handle_message
    rcases hg : msg.guildId with _ | gid
    · rfl
    · by_cases hc : clientUserId == some msg.authorId
      · simp [hc]
      · simp only [hc, Bool.false_eq_true, if_false]
        generalize (match env.findRoute (toString gid) with
          | none => ([] : List (Option Nat))
          | some r => r.feed_channels.getD []) = fcs
        by_cases he : fcs.isEmpty
        · simp [he, mentionsOk]
        · by_cases hmem : msg.channelId ∈ fcs.filterMap id
          · simp [he, hmem, mentionsOk]
          · simp [he, hmem, mentionsOk, List.all_append, mirrorAll_mentions]
  · unfold handle_message_edit
    rcases hg : after.guildId with _ | gid
    · rfl
    · by_cases hc : clientUserId == some after.authorId
      · simp [hc]
      · simp [hc, editLoop_mentions]

theorem noInsertBeforeOkSend_append_pure (A B : List Event)
    (hA : A.all (fun e => !isSendEvent e && !isInsertEvent e) = true) :
    noInsertBeforeOkSend (A ++ B) = noInsertBeforeOkSend B := by
  induction A with
  | nil => rfl
  | cons x rest ih =>
    simp only [List.all_cons, Bool.and_eq_true] at hA
    obtain ⟨⟨hx1, hx2⟩, hrest⟩ := hA
    cases x <;>
      simp_all [noInsertBeforeOkSend, isSendEvent, isInsertEvent, List.cons_append]

theorem noInsertBeforeOkSend_of_pure (A : List Event)
    (hA : A.all (fun e => !isSendEvent e && !isInsertEvent e) = true) :
    noInsertBeforeOkSend A = true := by
  have h := noInsertBeforeOkSend_append_pure A [] hA
  rw [List.append_nil] at h
  exact h

theorem resolve_parent_pure (env : Env) (msg : Message) (feedChannelId : Nat)
    (ch : Channel) (maps : List MappingRec) :
    ((resolve_parent_reference env msg feedChannelId ch maps).1.all
      (fun e => !isSendEvent e && !isInsertEvent e)) = true := by
  unfold resolve_parent_reference
  rcases msg.referenceMessageId with _ | pid
  · rfl
  · rcases hpf : findById (mapping_id_of pid feedChannelId) maps with _ | pm
    · simp [hpf, isSendEvent, isInsertEvent]
    · rcases hfm : pm.feed_message_id with _ | pfid
      · simp [hpf, hfm, isSendEvent, isInsertEvent]
      · rcases hfr : env.fetchMessage ch.id pfid with ⟨fid, content⟩ | _ | _ <;>
          simp [hpf, hfm, hfr, isSendEvent, isInsertEvent]

theorem hasOkSend_cons_fail (c : Nat) (kw : SendKwargs) (cause : SendFailCause)
    (l : List Event) :
    hasOkSend (Event.send c kw (SendResult.fail cause) :: l) = hasOkSend l := by
  simp [hasOkSend, isOkSend]

theorem noInsertBeforeOkSend_cons_fail (c : Nat) (kw : SendKwargs) (cause : SendFailCause)
    (l : List Event) :
    noInsertBeforeOkSend (Event.send c kw (SendResult.fail cause) :: l)
      = noInsertBeforeOkSend l := rfl

theorem sticker_fallback_atomic (env : Env) (msg : Message) (feedChannelId : Nat)
    (ch : Channel) (st : St) (kw : SendKwargs) :
    ((sticker_fallback env msg feedChannelId ch st kw).2.2 = false →
      (sticker_fallback env msg feedChannelId ch st kw).1.mappings = st.mappings ∧
      (sticker_fallback env msg feedChannelId ch st kw).1.header = st.header) ∧
    (hasOkSend (sticker_fallback env msg feedChannelId ch st kw).2.1 = false →
      (sticker_fallback env msg feedChannelId ch st kw).1.mappings = st.mappings ∧
      (sticker_fallback env msg feedChannelId ch st kw).1.header = st.header) ∧
    noInsertBeforeOkSend (sticker_fallback env msg feedChannelId ch st kw).2.1 = true := by
  unfold sticker_fallback
  by_cases h1 : msg.stickers.isEmpty
  · simp [h1, hasOkSend, noInsertBeforeOkSend]
  · by_cases h2 : (msg.stickers.filterMap env.stickerFile).isEmpty
    · simp [h1, h2, hasOkSend, noInsertBeforeOkSend]
    · rcases h3 : env.sendResult st.sendIdx with fmid | c
      · simp [h1, h2, h3, hasOkSend, isOkSend, noInsertBeforeOkSend, commit_mirror,
          bumpSend]
      · simp [h1, h2, h3, hasOkSend, isOkSend, noInsertBeforeOkSend, bumpSend]

theorem send_phase_atomic (env : Env) (msg : Message) (feedChannelId : Nat)
    (ch : Channel) (st : St) (includeHeader : Bool) (parentRef : Option Nat) :
    ((send_phase env msg feedChannelId ch st includeHeader parentRef).2.2 = false →
      (send_phase env msg feedChannelId ch st includeHeader parentRef).1.mappings
        = st.mappings ∧
      (send_phase env msg feedChannelId ch st includeHeader parentRef).1.header
        = st.header) ∧
    (hasOkSend (send_phase env msg feedChannelId ch st includeHeader parentRef).2.1
        = false →
      (send_phase env msg feedChannelId ch st includeHeader parentRef).1.mappings
        = st.mappings ∧
      (send_phase env msg feedChannelId ch st includeHeader parentRef).1.header
        = st.header) ∧
    noInsertBeforeOkSend
      (send_phase env msg feedChannelId ch st includeHeader parentRef).2.1 = true := by
  unfold send_phase
  rcases h1 : env.sendResult st.sendIdx with fmid | c
  · simp [h1, hasOkSend, isOkSend, noInsertBeforeOkSend]
  · simp only [h1]
    by_cases href : parentRef.isSome
    · rcases h2 : env.sendResult (bumpSend st).sendIdx with fmid2 | c2
      · simp [href, h2, hasOkSend, isOkSend, noInsertBeforeOkSend]
      · have hsf := sticker_fallback_atomic env msg feedChannelId ch
          (bumpSend (bumpSend st))
          { files := msg.attachments, allowed_mentions := AllowedMentions,
            reference := none, content := build_content msg includeHeader,
            stickers := msg.stickers }
        simp only [href, h2, bumpSend, List.cons_append, List.nil_append,
          eq_self_iff_true, if_true] at hsf ⊢
        refine ⟨fun hfail => hsf.1 hfail, fun hnosend => ?_, ?_⟩
        · apply hsf.2.1
          rw [hasOkSend_cons_fail, hasOkSend_cons_fail] at hnosend
          exact hnosend
        · rw [noInsertBeforeOkSend_cons_fail, noInsertBeforeOkSend_cons_fail]
          exact hsf.2.2
    · have hsf := sticker_fallback_atomic env msg feedChannelId ch (bumpSend st)
        { files := msg.attachments, allowed_mentions := AllowedMentions,
          reference := parentRef, content := build_content msg includeHeader,
          stickers := msg.stickers }
      simp only [href, bumpSend, Bool.false_eq_true, if_false, List.cons_append,
        List.nil_append] at hsf ⊢
      refine ⟨fun hfail => hsf.1 hfail, fun hnosend => ?_, ?_⟩
      · apply hsf.2.1
        rw [hasOkSend_cons_fail] at hnosend
        exact hnosend
      · rw [noInsertBeforeOkSend_cons_fail]
        exact hsf.2.2

/-- C9: commit atomicity of the dispatcher.  When the call raises, the
mapping store and the grouping state are unchanged; when no send
succeeded, they are also unchanged; and no mapping insertion ever appears
before a successful send in the event trace. -/
theorem commit_atomicity (env : Env) (msg : Message) (feedChannelId : Nat) (st : St) :
    ((mirror_message_to_feed_channel env msg feedChannelId st).2.2 = false →
      (mirror_message_to_feed_channel env msg feedChannelId st).1.mappings
        = st.mappings ∧
      (mirror_message_to_feed_channel env msg feedChannelId st).1.header = st.header) ∧
    (hasOkSend (mirror_message_to_feed_channel env msg feedChannelId st).2.1 = false →
      (mirror_message_to_feed_channel env msg feedChannelId st).1.mappings
        = st.mappings ∧
      (mirror_message_to_feed_channel env msg feedChannelId st).1.header = st.header) ∧
    noInsertBeforeOkSend
      (mirror_message_to_feed_channel env msg feedChannelId st).2.1 = true := by
  unfold mirror_message_to_feed_channel
  rcases hr : env.resolveChannel feedChannelId with _ | ch
  · simp [hasOkSend, noInsertBeforeOkSend]
  · cases hs : ch.hasSend
    · simp [hs, hasOkSend, noInsertBeforeOkSend]
    · by_cases hf : (findById (mapping_id_of msg.id feedChannelId) st.mappings).isSome
      · simp [hs, hf, hasOkSend, isOkSend, noInsertBeforeOkSend]
      · by_cases hp : canSendTo ch
        · simp only [hs, hf, hp, Bool.not_true, Bool.not_false, Bool.false_eq_true,
            if_false, if_true, if_neg]
          have hpure : ((Event.resolveChannel feedChannelId (some ch) ::
              Event.findMapping (mapping_id_of msg.id feedChannelId)
                (findById (mapping_id_of msg.id feedChannelId) st.mappings) ::
              (resolve_parent_reference env msg feedChannelId ch st.mappings).1).all
                (fun e => !isSendEvent e && !isInsertEvent e)) = true := by
            simp only [List.all_cons, resolve_parent_pure]
            rfl
          rcases hpr : (resolve_parent_reference env msg feedChannelId ch st.mappings).2
            with pref | _
          · have hsp := send_phase_atomic env msg feedChannelId ch st
              (FeedHeaderState.should_include_header st.header feedChannelId
                msg.channelId msg.authorId msg.referenceMessageId.isSome env.now) pref
            have hni := noInsertBeforeOkSend_append_pure
              (Event.resolveChannel feedChannelId (some ch) ::
                Event.findMapping (mapping_id_of msg.id feedChannelId)
                  (findById (mapping_id_of msg.id feedChannelId) st.mappings) ::
                (resolve_parent_reference env msg feedChannelId ch st.mappings).1)
              (send_phase env msg feedChannelId ch st
                (FeedHeaderState.should_include_header st.header feedChannelId
                  msg.channelId msg.authorId msg.referenceMessageId.isSome env.now)
                pref).2.1 hpure
            simp only [hpr, List.cons_append] at hni ⊢
            refine ⟨fun hfail => hsp.1 hfail, fun hnosend => ?_, ?_⟩
            · apply hsp.2.1
              simp only [hasOkSend, List.any_cons, List.any_append,
                Bool.or_eq_false_iff] at hnosend ⊢
              exact hnosend.2.2.2
            · simp only [List.cons_append, List.nil_append] at hni ⊢
              rw [hni]
              exact hsp.2.2
          · simp [hpr, List.cons_append, noInsertBeforeOkSend_of_pure _ hpure]
        · simp [hs, hf, hp, hasOkSend, noInsertBeforeOkSend]

/-- A reply to source message 5, itself message 1 in channel 2 of guild 4. -/
def msgReply : Message := { msgGuild with referenceMessageId := some 5 }

/-- The mapping of the reply's parent (message 5) at feed channel 9. -/
def mapParent : MappingRec :=
  { mid := mapping_id_of 5 9, source_message_id := 5, feed_message_id := some 77,
    feed_channel_id := some 9, source_guild_id := some 4 }

/-- A store holding only the parent mapping. -/
def stParent : St := { stEmpty with mappings := [mapParent] }

/-- An environment where the first send fails for a cause other than an
invalid reply reference, and the second succeeds. -/
def envRetry : Env :=
  { envNull with
    resolveChannel := fun _ => some chPlain,
    fetchMessage := fun _ mid => FetchResult.found mid "",
    sendResult := fun i => if i = 0 then SendResult.fail SendFailCause.other
      else SendResult.ok 42 }

/-- C5 counterexample: a send that fails with a cause other than an
invalid reply reference is nevertheless followed by exactly the
reference-clearing retry, so the retry is not specific to
invalid-reference failures. -/
theorem reply_retry_specificity_counterexample :
    ((sendEvents (mirror_message_to_feed_channel envRetry msgReply 9 stParent).2.1).map
        (fun p => (p.1.reference, p.2))
      = [(some 77, SendResult.fail SendFailCause.other), (none, SendResult.ok 42)]) ∧
    (((sendEvents (mirror_message_to_feed_channel envRetry msgReply 9 stParent).2.1).map
        Prod.fst).get? 1
      = (((sendEvents (mirror_message_to_feed_channel envRetry msgReply 9 stParent).2.1).map
          Prod.fst).get? 0).map (fun k => { k with reference := none })) := by
  decide

theorem sendEvents_append (a b : List Event) :
    sendEvents (a ++ b) = sendEvents a ++ sendEvents b :=
  List.filterMap_append a b _

theorem sendEvents_nil_of_pure (A : List Event)
    (hA : A.all (fun e => !isSendEvent e && !isInsertEvent e) = true) :
    sendEvents A = [] := by
  induction A with
  | nil => rfl
  | cons x rest ih =>
    simp only [List.all_cons, Bool.and_eq_true] at hA
    cases x <;> simp_all [sendEvents, isSendEvent, isInsertEvent]

theorem SendKwargs_update_reference_none (k : SendKwargs) (h : k.reference = none) :
    { k with reference := none } = k := by
  cases k
  simp_all

/-- The kwargs of the sticker-fallback retry: stickers dropped, converted
sticker files appended. -/
def fallbackKwargs (env : Env) (msg : Message) (kw : SendKwargs) : SendKwargs :=
  { kw with stickers := [], files := kw.files ++ msg.stickers.filterMap env.stickerFile }

theorem sticker_fallback_sendEvents (env : Env) (msg : Message) (feedChannelId : Nat)
    (ch : Channel) (st : St) (kw : SendKwargs) :
    sendEvents (sticker_fallback env msg feedChannelId ch st kw).2.1 = [] ∨
    ((∃ r, sendEvents (sticker_fallback env msg feedChannelId ch st kw).2.1
        = [(fallbackKwargs env msg kw, r)]) ∧
      msg.stickers.isEmpty = false) := by
  unfold sticker_fallback
  by_cases h1 : msg.stickers.isEmpty
  · left; simp [h1, sendEvents]
  · by_cases h2 : (msg.stickers.filterMap env.stickerFile).isEmpty
    · left; simp [h1, h2, sendEvents]
    · right
      refine ⟨?_, by simpa using h1⟩
      rcases h3 : env.sendResult st.sendIdx with fmid | c
      · exact ⟨SendResult.ok fmid,
          by simp [h1, h2, h3, sendEvents, commit_mirror, fallbackKwargs]⟩
      · exact ⟨SendResult.fail c, by simp [h1, h2, h3, sendEvents, fallbackKwargs]⟩

theorem send_phase_reply_retry (env : Env) (msg : Message) (feedChannelId : Nat)
    (ch : Channel) (st : St) (includeHeader : Bool) (parentRef : Option Nat)
    (k : SendKwargs) (c : SendFailCause) (rest : List (SendKwargs × SendResult))
    (h : sendEvents (send_phase env msg feedChannelId ch st includeHeader parentRef).2.1
      = (k, SendResult.fail c) :: rest) :
    (k.reference.isSome = true →
      rest.head?.map Prod.fst = some { k with reference := none } ∧
      rest.tail.all (fun p => p.1 != { k with reference := none }) = true) ∧
    (k.reference = none →
      rest.all (fun p => p.1 != { k with reference := none }) = true) := by
  unfold send_phase at h
  rcases h1 : env.sendResult st.sendIdx with fmid | c1 <;> simp only [h1] at h
  · simp [sendEvents, commit_mirror] at h
  · by_cases href : parentRef.isSome
    · simp only [href, eq_self_iff_true, if_true] at h
      rcases h2 : env.sendResult (bumpSend st).sendIdx with fmid2 | c2 <;>
        simp only [h2] at h
      · simp only [commit_mirror, sendEvents, List.cons_append, List.nil_append,
          List.filterMap_cons, List.filterMap_nil] at h
        obtain ⟨hk, hrest⟩ := List.cons_eq_cons.mp h
        obtain ⟨hk1, -⟩ := Prod.mk.injEq .. |>.mp hk
        subst hk1
        subst hrest
        refine ⟨fun _ => ⟨rfl, rfl⟩, fun hnone => ?_⟩
        have hp : parentRef = none := hnone
        rw [hp] at href
        simp at href
      · rcases sticker_fallback_sendEvents env msg feedChannelId ch
          (bumpSend (bumpSend st))
          { files := msg.attachments, allowed_mentions := AllowedMentions,
            reference := none, content := build_content msg includeHeader,
            stickers := msg.stickers } with hfb | ⟨⟨r3, hfb⟩, hne⟩
        · simp only [sendEvents, List.cons_append, List.nil_append,
            List.filterMap_cons, List.filterMap_append] at h
          simp only [sendEvents] at hfb
          rw [hfb] at h
          obtain ⟨hk, hrest⟩ := List.cons_eq_cons.mp h
          obtain ⟨hk1, -⟩ := Prod.mk.injEq .. |>.mp hk
          subst hk1
          subst hrest
          refine ⟨fun _ => ⟨rfl, rfl⟩, fun hnone => ?_⟩
          have hp : parentRef = none := hnone
          rw [hp] at href
          simp at href
        · simp only [sendEvents, List.cons_append, List.nil_append,
            List.filterMap_cons, List.filterMap_append] at h
          simp only [sendEvents] at hfb
          rw [hfb] at h
          obtain ⟨hk, hrest⟩ := List.cons_eq_cons.mp h
          obtain ⟨hk1, -⟩ := Prod.mk.injEq .. |>.mp hk
          subst hk1
          subst hrest
          refine ⟨fun _ => ⟨rfl, ?_⟩, fun hnone => ?_⟩
          · simp only [List.tail_cons, List.all_cons, List.all_nil, Bool.and_true,
              bne_iff_ne]
            intro heq
            have hst := congrArg SendKwargs.stickers heq
            simp [fallbackKwargs] at hst
            rw [hst] at hne
            simp at hne
          · have hp : parentRef = none := hnone
            rw [hp] at href
            simp at href
    · simp only [href, Bool.false_eq_true, if_false] at h
      rcases sticker_fallback_sendEvents env msg feedChannelId ch (bumpSend st)
        { files := msg.attachments, allowed_mentions := AllowedMentions,
          reference := parentRef, content := build_content msg includeHeader,
          stickers := msg.stickers } with hfb | ⟨⟨r3, hfb⟩, hne⟩
      · simp only [sendEvents, List.cons_append, List.nil_append,
          List.filterMap_cons, List.filterMap_append] at h
        simp only [sendEvents] at hfb
        rw [hfb] at h
        obtain ⟨hk, hrest⟩ := List.cons_eq_cons.mp h
        obtain ⟨hk1, -⟩ := Prod.mk.injEq .. |>.mp hk
        subst hk1
        subst hrest
        exact ⟨fun habs => absurd habs href, fun _ => rfl⟩
      · simp only [sendEvents, List.cons_append, List.nil_append,
          List.filterMap_cons, List.filterMap_append] at h
        simp only [sendEvents] at hfb
        rw [hfb] at h
        obtain ⟨hk, hrest⟩ := List.cons_eq_cons.mp h
        obtain ⟨hk1, -⟩ := Prod.mk.injEq .. |>.mp hk
        subst hk1
        subst hrest
        refine ⟨fun habs => absurd habs href, fun hnone => ?_⟩
        rw [SendKwargs_update_reference_none _ hnone]
        simp only [List.nil_append, List.all_cons, List.all_nil, Bool.and_true,
          bne_iff_ne]
        intro heq
        have hst := congrArg SendKwargs.stickers heq
        simp [fallbackKwargs] at hst
        rw [hst] at hne
        simp at hne

/-- C5 amended: when a send during mirroring fails and a reply reference
was attached to it, the dispatcher retries exactly once with the reply
reference cleared (and otherwise identical kwargs), regardless of the
failure's cause; when the failed send carried no reply reference, no
reference-clearing retry occurs (any further send is the modified
sticker-fallback send, never a resend of the same kwargs). -/
theorem reply_retry_on_any_failure (env : Env) (msg : Message) (feedChannelId : Nat)
    (st : St) (k : SendKwargs) (c : SendFailCause)
    (rest : List (SendKwargs × SendResult))
    (h : sendEvents (mirror_message_to_feed_channel env msg feedChannelId st).2.1
      = (k, SendResult.fail c) :: rest) :
    (k.reference.isSome = true →
      rest.head?.map Prod.fst = some { k with reference := none } ∧
      rest.tail.all (fun p => p.1 != { k with reference := none }) = true) ∧
    (k.reference = none →
      rest.all (fun p => p.1 != { k with reference := none }) = true) := by
  unfold mirror_message_to_feed_channel at h
  rcases hr : env.resolveChannel feedChannelId with _ | ch <;> simp only [hr] at h
  · simp [sendEvents] at h
  · cases hs : ch.hasSend <;> simp only [hs, Bool.not_false, Bool.not_true,
      if_true, Bool.false_eq_true, if_false] at h
    · simp [sendEvents] at h
    · by_cases hf : (findById (mapping_id_of msg.id feedChannelId) st.mappings).isSome
      · simp only [hf, if_true] at h
        simp [sendEvents] at h
      · by_cases hp : canSendTo ch
        · simp only [hf, hp, Bool.not_true, Bool.not_false, Bool.false_eq_true,
            if_false, if_true, if_neg] at h
          have hpure : ((Event.resolveChannel feedChannelId (some ch) ::
              Event.findMapping (mapping_id_of msg.id feedChannelId)
                (findById (mapping_id_of msg.id feedChannelId) st.mappings) ::
              (resolve_parent_reference env msg feedChannelId ch st.mappings).1).all
                (fun e => !isSendEvent e && !isInsertEvent e)) = true := by
            simp only [List.all_cons, resolve_parent_pure]
            rfl
          rcases hpr : (resolve_parent_reference env msg feedChannelId ch st.mappings).2
            with pref | _ <;> simp only [hpr] at h
          · rw [sendEvents_append] at h
            simp only [List.cons_append, List.nil_append] at h
            rw [sendEvents_nil_of_pure _ hpure, List.nil_append] at h
            exact send_phase_reply_retry env msg feedChannelId ch st _ pref k c rest h
          · rw [sendEvents_nil_of_pure _ (by
              simpa [List.cons_append] using hpure)] at h
            simp at h
        · simp only [hf, hp, Bool.not_true, Bool.not_false, Bool.false_eq_true,
            if_false, if_true, if_neg] at h
          simp [sendEvents] at h

/-- The kwargs of the first send in the counterexample run. -/
def kwFirst : SendKwargs :=
  ((sendEvents (mirror_message_to_feed_channel envRetry msgReply 9 stParent).2.1).head?.map
    Prod.fst).getD
    { files := [], allowed_mentions := AllowedMentions, reference := none,
      content := none, stickers := [] }

/-- The send attempts after the first one in the counterexample run. -/
def restAfterFirst : List (SendKwargs × SendResult) :=
  (sendEvents (mirror_message_to_feed_channel envRetry msgReply 9 stParent).2.1).tail

/-- Witness for C5 (amended) at the counterexample run: the failed
reference-carrying send is followed by exactly the reference-cleared
retry. -/
theorem reply_retry_on_any_failure_witness :
    restAfterFirst.head?.map Prod.fst = some { kwFirst with reference := none } ∧
    restAfterFirst.tail.all (fun p => p.1 != { kwFirst with reference := none }) = true :=
  (reply_retry_on_any_failure envRetry msgReply 9 stParent kwFirst SendFailCause.other
    restAfterFirst (by decide)).1 (by decide)

/-- Witness for C9 at a run whose only send fails: the call raises and
both the mapping store and the grouping state are unchanged. -/
theorem commit_atomicity_witness :
    (mirror_message_to_feed_channel envResolve msgGuild 9 stEmpty).1.mappings
      = stEmpty.mappings ∧
    (mirror_message_to_feed_channel envResolve msgGuild 9 stEmpty).1.header
      = stEmpty.header :=
  (commit_atomicity envResolve msgGuild 9 stEmpty).1 (by decide)

end FeedBot
